import Mathlib

/-!
Shallow embedding of the macOS spotlight-overlay example
(`src-tauri/src/spotlight.rs`, `src-tauri/src/accessibility.rs`,
`src-tauri/src/main.rs`) and proofs about its pure decision logic.

Conventions of the embedding:
* `CGFloat` / `f64` coordinates are modelled as `ℚ` (the code performs only
  `+ - * /` and exact `==` comparisons on them, never transcendental
  operations, so rationals are a faithful carrier for every input we reason
  about).
* Calls into the OS (window list, screen list, accessibility attribute
  reads, focus/raise actions) are modelled by explicit parameters that carry
  the value the OS would have returned, `Option`/`Except` encoding failure.
* A Rust `.unwrap()` on a failing value is modelled by the distinguished
  outcome `Outcome.panicked`; returning `Err(e)` is `Outcome.err e`.
-/

set_option autoImplicit false

namespace Spotlight

/-- Outcome of a Rust code path that may return a value, return an error,
or panic via `.unwrap()`. -/
inductive Outcome (ε : Type) (α : Type) where
  | ok : α → Outcome ε α
  | err : ε → Outcome ε α
  | panicked : Outcome ε α
deriving DecidableEq

/-- An `NSPoint` / mouse location (`CGFloat` coordinates as `ℚ`). -/
structure Point where
  x : ℚ
  y : ℚ
deriving DecidableEq

/-- An `NSSize` / `CGSize`. -/
structure Size where
  width : ℚ
  height : ℚ
deriving DecidableEq

/-- An `NSRect` / `CGRect`. -/
structure Rect where
  origin : Point
  size : Size
deriving DecidableEq

/-- Modelled from the OS documentation of `NSMouseInRect(aPoint, aRect, NO)`
(the declared `extern` in `spotlight.rs`): with `flipped = NO` the mouse
point is inside the rect iff its x lies in `[minX, maxX)` and its y lies in
`(minY, maxY]`. -/
def NSMouseInRect (p : Point) (r : Rect) : Bool :=
  decide (r.origin.x ≤ p.x) && decide (p.x < r.origin.x + r.size.width) &&
    decide (r.origin.y < p.y) && decide (p.y ≤ r.origin.y + r.size.height)

/-- An `NSScreen` as consumed by `get_monitor_with_cursor`: its `frame`,
`localizedName` (converted by `nsstring_to_string!`, which can yield `None`)
and `backingScaleFactor`. -/
structure Screen where
  frame : Rect
  name : Option String
  scale : ℚ
deriving DecidableEq

/-- Truncation of a `ℚ` toward zero, the rounding Rust's float-to-integer
`as` cast performs. -/
def truncQ (q : ℚ) : Int :=
  if 0 ≤ q then q.floor else q.ceil

/-- Rust `f64 as i32`: truncate toward zero, saturating at the `i32` bounds. -/
def f64AsI32 (q : ℚ) : Int :=
  max (-(2 ^ 31)) (min (2 ^ 31 - 1) (truncQ q))

/-- Rust `f64 as u32`: truncate toward zero, saturating at the `u32` bounds. -/
def f64AsU32 (q : ℚ) : Nat :=
  (max 0 (min (2 ^ 32 - 1) (truncQ q))).toNat

/-- The `Monitor` struct of `spotlight.rs`: name, physical size
(`PhysicalSize<u32>`), physical position (`PhysicalPosition<i32>`) and scale
factor. -/
structure Monitor where
  name : Option String
  sizeWidth : Nat
  sizeHeight : Nat
  posX : Int
  posY : Int
  scale : ℚ
deriving DecidableEq

/-- The `Monitor` value `get_monitor_with_cursor` builds from the screen the
loop stopped at: position and size are the frame scaled by
`backingScaleFactor` and cast with `as i32` / `as u32`. -/
def monitorOfScreen (s : Screen) : Monitor :=
  { name := s.name
    sizeWidth := f64AsU32 (s.frame.size.width * s.scale)
    sizeHeight := f64AsU32 (s.frame.size.height * s.scale)
    posX := f64AsI32 (s.frame.origin.x * s.scale)
    posY := f64AsI32 (s.frame.origin.y * s.scale)
    scale := s.scale }

/-- `get_monitor_with_cursor`: iterate the screen enumerator, break at the
first screen whose frame contains the mouse location
(`NSMouseInRect(mouse_location, frame, NO)`), return its `Monitor`;
`None` when the enumerator is exhausted. -/
def get_monitor_with_cursor (mouse : Point) : List Screen → Option Monitor
  | [] => none
  | s :: rest =>
    if NSMouseInRect mouse s.frame then some (monitorOfScreen s)
    else get_monitor_with_cursor mouse rest

/-- `PhysicalSize::to_logical::<f64>` / `PhysicalPosition::to_logical`:
divide the physical value by the scale factor. -/
def toLogical (v : ℚ) (scale : ℚ) : ℚ := v / scale

/-- The logical screen width `get_window_behind` computes from the monitor
with the cursor (`monitor.size.to_logical::<f64>(monitor.scale_factor).width`). -/
def logicalWidth (m : Monitor) : ℚ :=
  toLogical (m.sizeWidth : ℚ) m.scale

/-- The error enum of `spotlight.rs`. -/
inductive Error where
  | CouldNotGetWindowsList
  | NoWindowBehind
deriving DecidableEq

/-- One entry of the `CGWindowListCopyWindowInfo` array as read by the loop
of `get_window_behind`. Each field is the result of the corresponding
`CFDictionaryGetValueIfPresent` + conversion: `none` when the key is absent,
the value is null, or `cgnumber_to` / `CGRect::from_dict_representation` /
`nsstring_to_string!` fails. -/
structure WindowRecord where
  ownerId : Option Int
  windowId : Option Nat
  layer : Option Int
  bounds : Option Rect
  ownerName : Option String
deriving DecidableEq

/-- The loop body of `get_window_behind` over the copied window list
(`none` entries are null dictionaries, skipped by `window.is_null()`).
`sw` is the logical screen width, `fl` and `ml` are
`CGWindowLevelForKey(FloatingWindowLevelKey)` and
`CGWindowLevelForKey(MainMenuWindowLevelKey)`. A record missing owner id,
window id, layer or bounds is skipped (`continue`); an accepted record whose
owner name is unreadable panics (`window_name.unwrap()` in the `println!`). -/
def findBehind (sw : ℚ) (fl ml : Int) : List (Option WindowRecord) → Outcome Error (Int × Nat)
  | [] => .err .NoWindowBehind
  | none :: rest => findBehind sw fl ml rest
  | some r :: rest =>
    match r.ownerId with
    | none => findBehind sw fl ml rest
    | some ownerId =>
      match r.windowId with
      | none => findBehind sw fl ml rest
      | some windowId =>
        match r.layer with
        | none => findBehind sw fl ml rest
        | some layer =>
          match r.bounds with
          | none => findBehind sw fl ml rest
          | some rect =>
            let isFullscreenWindow := decide (ml < layer) && decide (sw = rect.size.width)
            let isRegularWindow := decide (layer < fl)
            if isFullscreenWindow || isRegularWindow then
              match r.ownerName with
              | some _ => .ok (ownerId, windowId)
              | none => .panicked
            else findBehind sw fl ml rest

/-- `get_window_behind`: unwraps the monitor with the cursor (panics when
`get_monitor_with_cursor` returned `None`), computes the logical screen
width, copies the on-screen window list below the overlay
(`windows : Option _`, `none` when `CGWindowListCopyWindowInfo` returned
null → `Err(CouldNotGetWindowsList)`) and runs the selection loop. -/
def get_window_behind (monitor : Option Monitor)
    (windows : Option (List (Option WindowRecord))) (fl ml : Int) :
    Outcome Error (Int × Nat) :=
  match monitor with
  | none => .panicked
  | some m =>
    let sw := logicalWidth m
    match windows with
    | none => .err .CouldNotGetWindowsList
    | some ws => findBehind sw fl ml ws

/-- A window record with every field present, as the claims' "list of
on-screen window records (owner id, window id, layer, bounds)". -/
structure FullRecord where
  ownerId : Int
  windowId : Nat
  layer : Int
  bounds : Rect
  ownerName : String
deriving DecidableEq

/-- Injection of a fully-populated record into the raw dictionary model. -/
def FullRecord.toRecord (r : FullRecord) : WindowRecord :=
  { ownerId := some r.ownerId
    windowId := some r.windowId
    layer := some r.layer
    bounds := some r.bounds
    ownerName := some r.ownerName }

/-- The acceptance test the code applies to a fully-populated record:
`is_fullscreen_window || is_regular_window`, i.e. the layer is above the
main-menu level with bounds width equal to the logical screen width, or the
layer is below the floating level. -/
def accepts (sw : ℚ) (fl ml : Int) (r : FullRecord) : Bool :=
  (decide (ml < r.layer) && decide (sw = r.bounds.size.width)) || decide (r.layer < fl)

/-- Modelled from the spec: the selector the spec describes, returning the
owner/window ids of the first record whose layer falls OUTSIDE the
floating/menu-level band `[fl, ml]` (and `NoWindowBehind` when there is
none), with no condition on the bounds. Used only to compare the spec's
words against the code's `findBehind`. -/
def spec_window_behind (fl ml : Int) (recs : List FullRecord) : Outcome Error (Int × Nat) :=
  match recs.find? (fun r => decide (r.layer < fl) || decide (ml < r.layer)) with
  | some r => .ok (r.ownerId, r.windowId)
  | none => .err .NoWindowBehind

/-! Embedding of `accessibility.rs`. Native `AXUIElementRef` handles are
modelled as abstract `Nat` identities. -/

/-- The error enum of `accessibility.rs`. -/
inductive AccError where
  | CouldNotFocusWindow
  | CouldNotGetWindowArray
  | CouldNotGetWindowsAccessibility
  | WindowNotFound (id : Nat)
  | CouldNotBringWindowToFront
deriving DecidableEq

/-- One element of a process's `kAXWindowsAttribute` array: its abstract
handle identity and the result of `_AXUIElementGetWindow` on it (`none`
when that call does not return `kAXErrorSuccess`). -/
structure AXWindowElem where
  ref : Nat
  winId : Option Nat
deriving DecidableEq

/-- What the accessibility subsystem answers for one process id inside
`get_axwindow`: application-element creation can fail
(`AXUIElementCreateApplication` null), the window-array attribute copy can
fail or be null, or the window array is available. -/
inductive AXAppEnv where
  | noApp
  | noWindows
  | windows (elems : List AXWindowElem)
deriving DecidableEq

/-- The scan loop of `get_axwindow` over the process's window array:
elements whose window id cannot be read are skipped (`continue`); the first
element whose id equals the requested one is returned; exhaustion yields
`WindowNotFound`. -/
def scanAXWindows (windowId : Nat) : List AXWindowElem → Except AccError Nat
  | [] => .error (.WindowNotFound windowId)
  | e :: rest =>
    match e.winId with
    | none => scanAXWindows windowId rest
    | some wid =>
      if wid = windowId then .ok e.ref else scanAXWindows windowId rest

/-- `get_axwindow(owner_id, window_id)`: create the application element
(null → `CouldNotGetWindowArray`), copy its `kAXWindowsAttribute` (failure
or null → `CouldNotGetWindowsAccessibility`), then scan the array. `env`
carries what the OS answers per process id. -/
def get_axwindow (env : Int → AXAppEnv) (ownerId : Int) (windowId : Nat) :
    Except AccError Nat :=
  match env ownerId with
  | .noApp => .error .CouldNotGetWindowArray
  | .noWindows => .error .CouldNotGetWindowsAccessibility
  | .windows elems => scanAXWindows windowId elems

/-- The `Store` of `accessibility.rs`: the mutex-guarded
`cached_windows : HashMap<u32, AXUIElementRefHandle>`, modelled as an
association list keyed by window id. -/
def Store := List (Nat × Nat)

/-- `Store::default()`: the empty cache. -/
def Store.empty : Store := ([] : List (Nat × Nat))

/-- `cached_windows.contains_key(&window_id)` / `.get(&window_id)`. -/
def Store.lookup (s : Store) (windowId : Nat) : Option Nat :=
  List.lookup windowId s

/-- `cache_axwindow`: re-check `contains_key`; when absent and
`get_axwindow` succeeds, `insert` the handle; every other path leaves the
map untouched. -/
def cache_axwindow (env : Int → AXAppEnv) (ownerId : Int) (windowId : Nat)
    (store : Store) : Store :=
  if (store.lookup windowId).isSome then store
  else
    match get_axwindow env ownerId windowId with
    | .ok ref => (windowId, ref) :: store
    | .error _ => store

/-- The app accessibility element `AXUIElementCreateApplication(owner_id)`
freshly created inside `get_axuielements`, determined by the supplied
owner id. -/
structure AXAppRef where
  owner : Int
deriving DecidableEq

/-- `get_axuielements`: if the window id is not cached, run
`cache_axwindow`; create the application element from the supplied owner id;
look the window id up in the cache (`WindowNotFound` when still absent).
Returns the updated store and the `(ax_app_ref, ax_window_ref)` pair. -/
def get_axuielements (env : Int → AXAppEnv) (ownerId : Int) (windowId : Nat)
    (store : Store) : Store × Except AccError (AXAppRef × Nat) :=
  let store1 :=
    if (store.lookup windowId).isSome then store
    else cache_axwindow env ownerId windowId store
  let axApp : AXAppRef := ⟨ownerId⟩
  match store1.lookup windowId with
  | some ref => (store1, .ok (axApp, ref))
  | none => (store1, .error (.WindowNotFound windowId))

/-! The hide path of `spotlight.rs`: `hide_spotlight` →
`focus_window_behind` → `get_window_behind` / `get_axuielements` →
`bring_window_to_top` / `focus_window`. -/

/-- `focus_window_behind`: on `Ok` from `get_window_behind`, resolve the
accessibility elements; on `Ok` from that, attempt
`bring_window_to_top` and `focus_window` and IGNORE their results
(`if ... && ... {}`); every `Err` is silently dropped. A panic inside
`get_window_behind` propagates. `bringOk`/`focusOk` carry whether the two
mutating accessibility actions would succeed. -/
def focus_window_behind (gwb : Outcome Error (Int × Nat)) (env : Int → AXAppEnv)
    (store : Store) (bringOk focusOk : Bool) : Store × Outcome Empty Unit :=
  match gwb with
  | .panicked => (store, .panicked)
  | .err _ => (store, .ok ())
  | .ok (ownerId, windowId) =>
    match get_axuielements env ownerId windowId store with
    | (store1, .ok _) =>
      let _ := bringOk && focusOk
      (store1, .ok ())
    | (store1, .error _) => (store1, .ok ())

/-- `hide_spotlight`: run `focus_window_behind`, then `window.hide().unwrap()`
(`hideOk` is whether the hide call succeeds; its failure panics). The
command returns `()` — its error type is `Empty`, no structured error can
reach the UI layer. -/
def hide_spotlight (monitor : Option Monitor)
    (windows : Option (List (Option WindowRecord))) (fl ml : Int)
    (env : Int → AXAppEnv) (store : Store) (bringOk focusOk hideOk : Bool) :
    Store × Outcome Empty Unit :=
  match focus_window_behind (get_window_behind monitor windows fl ml) env store bringOk focusOk with
  | (store1, .panicked) => (store1, .panicked)
  | (store1, .err e) => (store1, .err e)
  | (store1, .ok _) => (store1, if hideOk then .ok () else .panicked)

/-! One-shot initialisation (`static INIT: Once` and `init_spotlight_window`). -/

/-- The process state relevant to `init_spotlight_window`: whether
`INIT: Once` has fired, and how many times the initialisation body
(shortcut registration, backdrop hook, collection behaviour, window level,
initial focus) has executed. -/
structure InitState where
  once : Bool
  bodyRuns : Nat
deriving DecidableEq

/-- The state at process start: `Once::new()`, body never run. -/
def initialInitState : InitState := ⟨false, 0⟩

/-- `init_spotlight_window`: `INIT.call_once(|| { ... })` — the closure runs
exactly when the `Once` has not fired yet; afterwards the `Once` is marked
fired. -/
def init_spotlight_window (s : InitState) : InitState :=
  if s.once then s else { once := true, bodyRuns := s.bodyRuns + 1 }

/-- `position_window_at_the_center_of_the_monitor_with_cursor`: when no
monitor contains the cursor the frame is untouched; otherwise
`setFrame:display:` is called with the same size and an origin placing the
frame's centre at the centre of the monitor's logical rect
(`display_pos + display_size/2 - win_frame.size/2`). -/
def position_window_at_the_center_of_the_monitor_with_cursor
    (monitor : Option Monitor) (frame : Rect) : Rect :=
  match monitor with
  | none => frame
  | some m =>
    let displayWidth := toLogical (m.sizeWidth : ℚ) m.scale
    let displayHeight := toLogical (m.sizeHeight : ℚ) m.scale
    let displayPosX := toLogical (m.posX : ℚ) m.scale
    let displayPosY := toLogical (m.posY : ℚ) m.scale
    { origin :=
        { x := (displayPosX + displayWidth / 2) - frame.size.width / 2
          y := (displayPosY + displayHeight / 2) - frame.size.height / 2 }
      size := frame.size }

/-! The invoke handlers registered in `main.rs`. -/

/-- Argument shape of an invoked command. -/
inductive ArgKind where
  | noArg
  | windowArg
deriving DecidableEq

/-- One command exposed through `tauri::generate_handler!`: its Rust handler
name, the front-end-facing operation it implements, its argument shape, and
whether it returns no payload beyond success/failure. -/
structure Command where
  name : String
  frontEnd : String
  arg : ArgKind
  payloadFree : Bool
deriving DecidableEq

/-- The handler list of `main.rs`
(`tauri::generate_handler![init_spotlight_window, show_spotlight,
hide_spotlight, will_open_file_picker, did_close_file_picker]`).
`init_spotlight_window` and `hide_spotlight` take a `Window<Wry>` and return
`()` (from `spotlight.rs`). Modelled from the spec: the bodies of
`show_spotlight`, `will_open_file_picker` and `did_close_file_picker` are
not in the sources at hand; per the spec each is "a no-argument or
window-argument RPC-style call ... with no return payload beyond
success/failure" — `show_spotlight` acts on the overlay window
(window-argument), the two file-picker notifications carry no argument. -/
def exposed_commands : List Command :=
  [ ⟨"init_spotlight_window", "initialize-overlay-window", .windowArg, true⟩,
    ⟨"show_spotlight", "show-overlay", .windowArg, true⟩,
    ⟨"hide_spotlight", "hide-overlay", .windowArg, true⟩,
    ⟨"will_open_file_picker", "will-open-file-picker", .noArg, true⟩,
    ⟨"did_close_file_picker", "did-close-file-picker", .noArg, true⟩ ]

/-- Two screens have disjoint frames: no mouse point is inside both
(with respect to the containment test the code uses). -/
def disjointFrames (s t : Screen) : Prop :=
  ∀ q : Point, ¬(NSMouseInRect q s.frame = true ∧ NSMouseInRect q t.frame = true)

/-! Concrete data used to evaluate the definitions at specific inputs. -/

/-- A 100 × 50 window rect at the origin. -/
def rect100x50 : Rect := ⟨⟨0, 0⟩, ⟨100, 50⟩⟩

/-- A monitor of physical size 1000 × 800 at physical origin, scale
factor 2 — logical screen width 500. -/
def monitorA : Monitor := ⟨none, 1000, 800, 0, 0, 2⟩

/-- A fully-populated window record at layer 25 (above the main-menu level
24) whose bounds width 100 differs from `monitorA`'s logical width 500. -/
def highLayerRecord : FullRecord := ⟨7, 42, 25, rect100x50, "A"⟩

/-- A window record at layer 0 with every field present except the owner
name, which the window server could not provide. -/
def namelessRecord : WindowRecord := ⟨some 7, some 42, some 0, some rect100x50, none⟩

/-- A screen of frame 500 × 400 at origin, scale 2. -/
def screenA : Screen := ⟨⟨⟨0, 0⟩, ⟨500, 400⟩⟩, none, 2⟩

/-- A screen of frame 500 × 400 to the right of `screenA`, scale 1. -/
def screenB : Screen := ⟨⟨⟨500, 0⟩, ⟨500, 400⟩⟩, some "B", 1⟩

/-! Theorems. -/

theorem get_monitor_with_cursor_eq_find (p : Point) (ss : List Screen) :
    get_monitor_with_cursor p ss =
      (ss.find? (fun s => NSMouseInRect p s.frame)).map monitorOfScreen := by
  induction ss with
  | nil => rfl
  | cons s rest ih =>
    by_cases h : NSMouseInRect p s.frame
    · simp [get_monitor_with_cursor, List.find?, h]
    · simp only [Bool.not_eq_true] at h
      simp [get_monitor_with_cursor, List.find?, h, ih]

theorem get_monitor_with_cursor_unique (p : Point) (ss : List Screen)
    (hdisj : List.Pairwise disjointFrames ss) :
    ∀ s ∈ ss, NSMouseInRect p s.frame = true →
      get_monitor_with_cursor p ss = some (monitorOfScreen s) := by
  induction ss with
  | nil => intro s hs; simp at hs
  | cons t rest ih =>
    rcases List.pairwise_cons.mp hdisj with ⟨ht, hrest⟩
    intro s hs hps
    rcases List.mem_cons.mp hs with rfl | hs'
    · simp [get_monitor_with_cursor, hps]
    · by_cases hpt : NSMouseInRect p t.frame
      · exact absurd ⟨hpt, hps⟩ (ht s hs' p)
      · simp only [Bool.not_eq_true] at hpt
        simp only [get_monitor_with_cursor, hpt, Bool.false_eq_true, if_false]
        exact ih hrest s hs' hps

/-- Claim C3 (confirmed): for every list of display rects and every cursor
point, `get_monitor_with_cursor` returns the monitor of the first rect
containing the point (under the code's `NSMouseInRect` containment test),
returns `none` exactly when the point lies outside all rects, and — when
the displays are pairwise disjoint — that first match is the unique
containing rect. -/
theorem monitor_with_cursor_spec (p : Point) (ss : List Screen) :
    get_monitor_with_cursor p ss =
        (ss.find? (fun s => NSMouseInRect p s.frame)).map monitorOfScreen ∧
      (get_monitor_with_cursor p ss = none ↔
        ∀ s ∈ ss, ¬NSMouseInRect p s.frame = true) ∧
      (List.Pairwise disjointFrames ss →
        ∀ s ∈ ss, NSMouseInRect p s.frame = true →
          get_monitor_with_cursor p ss = some (monitorOfScreen s)) := by
  refine ⟨get_monitor_with_cursor_eq_find p ss, ?_, get_monitor_with_cursor_unique p ss⟩
  rw [get_monitor_with_cursor_eq_find p ss]
  simp [List.find?_eq_none]

/-- Witness for C3: on two side-by-side disjoint screens, the cursor at
(600, 100) selects the second screen's monitor. -/
theorem monitor_with_cursor_spec_witness :
    get_monitor_with_cursor ⟨600, 100⟩ [screenA, screenB] =
      some (monitorOfScreen screenB) := by
  refine (monitor_with_cursor_spec ⟨600, 100⟩ [screenA, screenB]).2.2 ?_ screenB ?_ ?_
  · refine List.pairwise_cons.mpr ⟨?_, List.pairwise_singleton _ _⟩
    intro t htmem q hq
    rcases (List.mem_singleton).mp htmem with rfl
    rcases hq with ⟨hqa, hqb⟩
    simp only [NSMouseInRect, screenA, screenB, Bool.and_eq_true, decide_eq_true_eq] at hqa hqb
    linarith [hqa.1.1.2, hqb.1.1.1]
  · simp
  · norm_num [NSMouseInRect, screenB]

theorem findBehind_full (sw : ℚ) (fl ml : Int) (recs : List FullRecord) :
    findBehind sw fl ml (recs.map (fun r => some r.toRecord)) =
      match recs.find? (accepts sw fl ml) with
      | some r => Outcome.ok (r.ownerId, r.windowId)
      | none => Outcome.err Error.NoWindowBehind := by
  induction recs with
  | nil => rfl
  | cons r rest ih =>
    have hcond : ((decide (ml < r.layer) && decide (sw = r.bounds.size.width)) ||
        decide (r.layer < fl)) = accepts sw fl ml r := rfl
    by_cases h : accepts sw fl ml r
    · rw [List.map_cons, List.find?_cons_of_pos _ h]
      simp only [findBehind, FullRecord.toRecord, hcond, h, if_true]
    · rw [List.map_cons, List.find?_cons_of_neg _ (by simp [h])]
      simp only [findBehind, FullRecord.toRecord, hcond, h, Bool.false_eq_true, if_false]
      exact ih

/-- Claim C1 (amended, proved): over a list of fully-populated window
records, `get_window_behind` returns the owner/window ids of the first
record that is either a regular window (layer strictly below the floating
level) or a fullscreen window (layer strictly above the main-menu level AND
bounds width equal to the monitor's logical screen width), skipping every
earlier record satisfying neither, and reports `NoWindowBehind` when no
record qualifies. -/
theorem window_behind_first_accepted (m : Monitor) (fl ml : Int)
    (recs : List FullRecord) :
    get_window_behind (some m) (some (recs.map (fun r => some r.toRecord))) fl ml =
      match recs.find? (accepts (logicalWidth m) fl ml) with
      | some r => Outcome.ok (r.ownerId, r.windowId)
      | none => Outcome.err Error.NoWindowBehind := by
  simpa [get_window_behind] using findBehind_full (logicalWidth m) fl ml recs

/-- Counterexample to C1 as stated: with floating level 3 and main-menu
level 24, the record (owner 7, window 42, layer 25, bounds width 100) has
its layer OUTSIDE the floating/menu-level band, so the claimed selector
(`spec_window_behind`, written from the spec's words) returns (7, 42) —
but the code skips it because its bounds width differs from the logical
screen width 500, and reports `NoWindowBehind`. -/
theorem window_behind_band_counterexample :
    spec_window_behind 3 24 [highLayerRecord] = Outcome.ok (7, 42) ∧
      get_window_behind (some monitorA) (some [some highLayerRecord.toRecord]) 3 24 =
        Outcome.err Error.NoWindowBehind ∧
      (Outcome.err Error.NoWindowBehind : Outcome Error (Int × Nat)) ≠
        Outcome.ok (7, 42) := by
  refine ⟨by decide, ?_, by decide⟩
  norm_num [get_window_behind, logicalWidth, toLogical, monitorA, findBehind,
    highLayerRecord, rect100x50, FullRecord.toRecord]

/-- Claim C2 (amended, proved): each enumerated OS-call failure during the
hide action (window list unavailable, no eligible window behind, window not
found / accessibility resolution failure, focus/raise action rejected)
aborts that action without a structured error ever reaching the UI layer —
at most the focus handoff is skipped and the overlay is still hidden —
provided `get_window_behind` itself does not panic (some display contains
the cursor and the selected record's owner name is readable) and the hide
call succeeds; the command then completes with `()` for EVERY accessibility
environment and every outcome of the two mutating focus actions. -/
theorem hide_spotlight_silent (monitor : Option Monitor)
    (windows : Option (List (Option WindowRecord))) (fl ml : Int)
    (env : Int → AXAppEnv) (store : Store) (bringOk focusOk : Bool)
    (hnp : get_window_behind monitor windows fl ml ≠ Outcome.panicked) :
    (hide_spotlight monitor windows fl ml env store bringOk focusOk true).2 =
      Outcome.ok () := by
  unfold hide_spotlight focus_window_behind
  rcases hgwb : get_window_behind monitor windows fl ml with ⟨o, w⟩ | e | _
  · rcases hax : get_axuielements env o w store with ⟨store1, res⟩
    rcases res with v | e <;> simp [hax]
  · simp
  · exact absurd hgwb hnp

/-- Witness for C2: with a null window list (the window-list-unavailable
failure) and every accessibility call failing, hiding still completes
silently. -/
theorem hide_spotlight_silent_witness :
    (hide_spotlight (some monitorA) none 3 24 (fun _ => AXAppEnv.noApp)
        Store.empty false false true).2 = Outcome.ok () := by
  refine hide_spotlight_silent (some monitorA) none 3 24 (fun _ => AXAppEnv.noApp)
    Store.empty false false ?_
  simp [get_window_behind]

/-- Counterexample to C2 as stated: when the window server cannot provide
the owner-name attribute of the selected record (an "attribute unreadable"
failure of an OS call), `get_window_behind` panics at
`window_name.unwrap()` and the whole hide action panics instead of aborting
silently. -/
theorem hide_spotlight_panic_counterexample :
    get_window_behind (some monitorA) (some [some namelessRecord]) 3 24 =
        Outcome.panicked ∧
      (hide_spotlight (some monitorA) (some [some namelessRecord]) 3 24
          (fun _ => AXAppEnv.noApp) Store.empty true true true).2 =
        Outcome.panicked ∧
      (Outcome.panicked : Outcome Empty Unit) ≠ Outcome.ok () := by
  refine ⟨?_, ?_, by decide⟩
  · norm_num [get_window_behind, logicalWidth, toLogical, monitorA, findBehind,
      namelessRecord, rect100x50]
  · norm_num [hide_spotlight, focus_window_behind, get_window_behind, logicalWidth,
      toLogical, monitorA, findBehind, namelessRecord, rect100x50]

/-- Claim C8 (confirmed): `get_window_behind` unconditionally unwraps
`get_monitor_with_cursor`; when no display contains the cursor it panics —
for every window list — rather than returning one of its declared errors,
and the whole hide action panics with it. -/
theorem get_window_behind_panics_without_monitor
    (windows : Option (List (Option WindowRecord))) (fl ml : Int)
    (env : Int → AXAppEnv) (store : Store) (bringOk focusOk hideOk : Bool) :
    get_window_behind none windows fl ml = Outcome.panicked ∧
      (∀ e : Error, get_window_behind none windows fl ml ≠ Outcome.err e) ∧
      (hide_spotlight none windows fl ml env store bringOk focusOk hideOk).2 =
        Outcome.panicked := by
  refine ⟨rfl, ?_, rfl⟩
  intro e
  simp [get_window_behind]

theorem scanAXWindows_eq_find (windowId : Nat) (elems : List AXWindowElem) :
    scanAXWindows windowId elems =
      match elems.find? (fun e => decide (e.winId = some windowId)) with
      | some e => Except.ok e.ref
      | none => Except.error (AccError.WindowNotFound windowId) := by
  induction elems with
  | nil => rfl
  | cons e rest ih =>
    rcases hwin : e.winId with _ | wid
    · rw [List.find?_cons_of_neg _ (by simp [hwin])]
      simpa [scanAXWindows, hwin] using ih
    · by_cases h : wid = windowId
      · subst h
        rw [List.find?_cons_of_pos _ (by simp [hwin])]
        simp [scanAXWindows, hwin]
      · rw [List.find?_cons_of_neg _ (by simp [hwin, h])]
        simpa [scanAXWindows, hwin, h] using ih

/-- Claim C4 (confirmed): for every process id and window id, when the
process's accessibility window array is available, `get_axwindow` scans it
linearly, returns the first element whose window-server window id equals
the requested one (elements whose id cannot be read are skipped), and
fails with `WindowNotFound window_id` when no element matches. -/
theorem get_axwindow_scan (env : Int → AXAppEnv) (ownerId : Int) (windowId : Nat)
    (elems : List AXWindowElem) (henv : env ownerId = AXAppEnv.windows elems) :
    get_axwindow env ownerId windowId =
      match elems.find? (fun e => decide (e.winId = some windowId)) with
      | some e => Except.ok e.ref
      | none => Except.error (AccError.WindowNotFound windowId) := by
  rw [get_axwindow, henv]
  exact scanAXWindows_eq_find windowId elems

/-- A sample accessibility window array: an element whose window id is
unreadable, then two elements carrying window id 5. -/
def axElemsA : List AXWindowElem := [⟨10, none⟩, ⟨11, some 5⟩, ⟨12, some 5⟩]

/-- A sample accessibility environment offering `axElemsA` for every
process. -/
def axEnvA : Int → AXAppEnv := fun _ => AXAppEnv.windows axElemsA

/-- Witness for C4: on `axElemsA`, looking for window id 5 skips the
unreadable element and returns the FIRST matching element's handle 11. -/
theorem get_axwindow_scan_witness :
    get_axwindow axEnvA 3 5 = Except.ok 11 := by
  rw [get_axwindow_scan axEnvA 3 5 axElemsA rfl]
  rfl

/-- Claim C5 (confirmed): the accessibility-handle cache is
insert-if-absent — once an entry exists for a window id, neither
`cache_axwindow` nor `get_axuielements` (for any requested window id, any
owner and any accessibility environment) replaces or removes it, and a
`get_axuielements` call for a cached window id leaves the store untouched
and returns the cached handle without consulting the resolution environment. -/
theorem cache_insert_if_absent (env : Int → AXAppEnv) (ownerId : Int)
    (windowId windowId2 h2 : Nat) (store : Store)
    (hc : store.lookup windowId2 = some h2) :
    (cache_axwindow env ownerId windowId store).lookup windowId2 = some h2 ∧
      ((get_axuielements env ownerId windowId store).1).lookup windowId2 = some h2 ∧
      (windowId = windowId2 →
        get_axuielements env ownerId windowId store =
          (store, Except.ok (⟨ownerId⟩, h2))) := by
  have hcache : (cache_axwindow env ownerId windowId store).lookup windowId2 = some h2 := by
    unfold cache_axwindow
    by_cases hmem : (store.lookup windowId).isSome
    · simp [hmem, hc]
    · have hne : windowId2 ≠ windowId := by
        intro heq
        rw [← heq, hc] at hmem
        simp at hmem
      rcases hax : get_axwindow env ownerId windowId with e | ref
      · simpa [hmem, hax] using hc
      · simp only [hmem, if_false, Bool.false_eq_true, hax]
        have hbeq : (windowId2 == windowId) = false := beq_eq_false_iff_ne.mpr hne
        simpa [Store.lookup, List.lookup, hbeq] using hc
  refine ⟨hcache, ?_, ?_⟩
  · unfold get_axuielements
    by_cases hmem : (store.lookup windowId).isSome
    · simp only [hmem, if_true]
      rcases hl : store.lookup windowId with _ | ref <;> simp [hl, hc]
    · simp only [hmem, if_false, Bool.false_eq_true]
      rcases hl : (cache_axwindow env ownerId windowId store).lookup windowId with _ | ref <;>
        simp [hl, hcache]
  · intro heq
    subst heq
    unfold get_axuielements
    simp [hc]

/-- Witness for C5: with window id 5 cached as handle 99, both operations
leave the one-entry store intact and the lookup returns handle 99. -/
theorem cache_insert_if_absent_witness :
    get_axuielements axEnvA 1 5 (([(5, 99)] : List (Nat × Nat)) : Store) =
      ((([(5, 99)] : List (Nat × Nat)) : Store), Except.ok (⟨1⟩, 99)) := by
  exact (cache_insert_if_absent axEnvA 1 5 5 99
    (([(5, 99)] : List (Nat × Nat)) : Store) rfl).2.2 rfl

/-- Claim C10 (confirmed): for a window id already in the cache,
`get_axuielements` returns the cached window handle regardless of the
supplied owner id or accessibility environment — two calls with different
owner ids yield the same window handle — while the application handle is
built from the supplied owner id on each call. -/
theorem cached_window_ignores_owner (env1 env2 : Int → AXAppEnv)
    (owner1 owner2 : Int) (windowId h : Nat) (store : Store)
    (hc : store.lookup windowId = some h) :
    (get_axuielements env1 owner1 windowId store).2 =
        Except.ok (⟨owner1⟩, h) ∧
      (get_axuielements env2 owner2 windowId store).2 =
        Except.ok (⟨owner2⟩, h) := by
  constructor <;> · unfold get_axuielements; simp [hc]

/-- Witness for C10: with window id 5 cached as handle 99, owners 1 and 2
both receive window handle 99, each paired with an app element for its own
owner id. -/
theorem cached_window_ignores_owner_witness :
    (get_axuielements axEnvA 1 5 (([(5, 99)] : List (Nat × Nat)) : Store)).2 =
        Except.ok (⟨1⟩, 99) ∧
      (get_axuielements (fun _ => AXAppEnv.noApp) 2 5
          (([(5, 99)] : List (Nat × Nat)) : Store)).2 =
        Except.ok (⟨2⟩, 99) :=
  cached_window_ignores_owner axEnvA (fun _ => AXAppEnv.noApp) 1 2 5 99
    (([(5, 99)] : List (Nat × Nat)) : Store) rfl

/-- Claim C6 (confirmed): across every sequence of calls to
`init_spotlight_window` from process start, the initialisation body runs at
most once — after the first call the state is pinned at (fired, one run)
and every further call is the identity on it. -/
theorem init_body_runs_at_most_once (n : Nat) :
    (init_spotlight_window^[n] initialInitState).bodyRuns ≤ 1 ∧
      (1 ≤ n →
        init_spotlight_window^[n] initialInitState = ⟨true, 1⟩) ∧
      ∀ s : InitState, s.once = true → init_spotlight_window s = s := by
  have hfix : ∀ s : InitState, s.once = true → init_spotlight_window s = s := by
    intro s hs
    simp [init_spotlight_window, hs]
  have hone : ∀ m : Nat, init_spotlight_window^[m] (⟨true, 1⟩ : InitState) = ⟨true, 1⟩ :=
    fun m => Function.iterate_fixed (hfix ⟨true, 1⟩ rfl) m
  have hge : 1 ≤ n → init_spotlight_window^[n] initialInitState = ⟨true, 1⟩ := by
    intro hn
    obtain ⟨m, rfl⟩ := Nat.exists_eq_add_of_le hn
    rw [Nat.add_comm, Function.iterate_add_apply]
    have h1 : init_spotlight_window^[1] initialInitState = ⟨true, 1⟩ := by
      simp [init_spotlight_window, initialInitState]
    rw [h1]
    exact hone m
  refine ⟨?_, hge, hfix⟩
  rcases Nat.eq_zero_or_pos n with rfl | hn
  · simp [initialInitState]
  · rw [hge hn]

/-- Witness for C6: after three calls the `Once` has fired and the body ran
exactly once. -/
theorem init_body_runs_at_most_once_witness :
    init_spotlight_window^[3] initialInitState = ⟨true, 1⟩ :=
  (init_body_runs_at_most_once 3).2.1 (by norm_num)

/-- Claim C7 (confirmed): the program exposes exactly the five invoked
commands of `main.rs` — initialize-overlay-window (`init_spotlight_window`),
show-overlay (`show_spotlight`), hide-overlay (`hide_spotlight`),
will-open-file-picker and did-close-file-picker — each a no-argument or
window-argument call returning no payload beyond success or failure. -/
theorem exposed_commands_exact :
    exposed_commands.map Command.name =
        ["init_spotlight_window", "show_spotlight", "hide_spotlight",
          "will_open_file_picker", "did_close_file_picker"] ∧
      exposed_commands.map Command.frontEnd =
        ["initialize-overlay-window", "show-overlay", "hide-overlay",
          "will-open-file-picker", "did-close-file-picker"] ∧
      ∀ c ∈ exposed_commands,
        (c.arg = ArgKind.noArg ∨ c.arg = ArgKind.windowArg) ∧ c.payloadFree = true := by
  refine ⟨rfl, rfl, ?_⟩
  intro c hc
  fin_cases hc <;> simp [exposed_commands]

/-- Witness for C7: the hide-overlay command carries a window argument and
returns no payload beyond success/failure. -/
theorem exposed_commands_exact_witness :
    ((⟨"hide_spotlight", "hide-overlay", ArgKind.windowArg, true⟩ : Command).arg =
        ArgKind.noArg ∨
      (⟨"hide_spotlight", "hide-overlay", ArgKind.windowArg, true⟩ : Command).arg =
        ArgKind.windowArg) ∧
      (⟨"hide_spotlight", "hide-overlay", ArgKind.windowArg, true⟩ : Command).payloadFree =
        true :=
  exposed_commands_exact.2.2
    ⟨"hide_spotlight", "hide-overlay", ArgKind.windowArg, true⟩
    (by simp [exposed_commands])

/-- Witness for C8: with no monitor under the cursor and an empty window
list, `get_window_behind` panics. -/
theorem get_window_behind_panics_without_monitor_witness :
    get_window_behind none (some []) 3 24 = Outcome.panicked :=
  (get_window_behind_panics_without_monitor (some []) 3 24
    (fun _ => AXAppEnv.noApp) Store.empty true true true).1

/-- Claim C9 (confirmed): `position_window_at_the_center_of_the_monitor_with_cursor`
never changes the window's size; when no display contains the cursor the
whole frame is untouched; otherwise only the origin is rewritten so that
the frame's centre coincides with the centre of the logical rect of the
monitor containing the cursor. -/
theorem position_window_centers (monitor : Option Monitor) (frame : Rect) :
    (position_window_at_the_center_of_the_monitor_with_cursor monitor frame).size =
        frame.size ∧
      position_window_at_the_center_of_the_monitor_with_cursor none frame = frame ∧
      ∀ m : Monitor, monitor = some m →
        (position_window_at_the_center_of_the_monitor_with_cursor monitor frame).origin.x +
              frame.size.width / 2 =
            toLogical (m.posX : ℚ) m.scale + toLogical (m.sizeWidth : ℚ) m.scale / 2 ∧
          (position_window_at_the_center_of_the_monitor_with_cursor monitor frame).origin.y +
              frame.size.height / 2 =
            toLogical (m.posY : ℚ) m.scale + toLogical (m.sizeHeight : ℚ) m.scale / 2 := by
  refine ⟨?_, rfl, ?_⟩
  · rcases monitor with _ | m <;>
      simp [position_window_at_the_center_of_the_monitor_with_cursor]
  · rintro m rfl
    constructor <;>
      · simp only [position_window_at_the_center_of_the_monitor_with_cursor]
        ring

/-- Witness for C9: centering a 10 × 20 frame on the monitor of physical
size 1000 × 800 at scale 2 puts the frame's centre at (250, 200). -/
theorem position_window_centers_witness :
    (position_window_at_the_center_of_the_monitor_with_cursor (some monitorA)
          ⟨⟨3, 4⟩, ⟨10, 20⟩⟩).origin.x + (10 : ℚ) / 2 =
        toLogical ((monitorA.posX : ℚ)) monitorA.scale +
          toLogical ((monitorA.sizeWidth : ℚ)) monitorA.scale / 2 :=
  ((position_window_centers (some monitorA) ⟨⟨3, 4⟩, ⟨10, 20⟩⟩).2.2 monitorA rfl).1

end Spotlight
